import Mathlib

/-!
Verification of the scripting binding layer for the item-container
subsystem (`src/lua/functions/items/container_functions.cpp`).

The bindings in the source file marshal Lua calls into operations on the
engine's `Container`/`Item` structures.  Those engine structures are
external collaborators of the shown code; where a claim depends on them
they are modelled from the spec (each such definition is marked
`Modelled from the spec:`).  The bindings themselves are translated
directly from the C++ source.
-/

set_option maxHeartbeats 1000000

namespace ContainerSpec

/-- Item attribute keys (`ItemAttribute_t` in the engine).  Only `DATE` is
used by the bindings; other keys are collapsed into `other`. -/
inductive ItemAttr where
  | date
  | other (n : Nat)
deriving DecidableEq, Repr

/-- The per-item data carried by an `Item` instance.  `isCont` is whether
`getContainer()` would return non-null; `capacityV` is what `capacity()`
reports (for a non-container it is unused); `inLimbo` is whether the item's
parent is the transient staging area (`VirtualCylinder::virtualCylinder`);
`corpseOwnerId` is what `getCorpseOwner()` reports. -/
structure ItemData where
  itemId : Nat
  count : Nat
  attrs : List (ItemAttr × Int)
  rewardCorpse : Bool
  isCont : Bool
  capacityV : Nat
  maxCapacityV : Nat
  inLimbo : Bool
  corpseOwnerId : Nat
deriving DecidableEq, Repr

/-- An engine item: its own data plus the ordered slot sequence of child
items (empty for a non-container).  Modelled from the spec: `Container`
is-an `Item` owning a bounded ordered sequence of child Items. -/
inductive Item where
  | node : ItemData → List Item → Item

/-- The data of an item. -/
def Item.data : Item → ItemData
  | .node d _ => d

/-- The slot sequence of an item (its children when it is a container). -/
def Item.slots : Item → List Item
  | .node _ s => s

/-- `Container::size()`: current top-level item count. -/
def Item.size (i : Item) : Nat := i.slots.length

/-- `Container::capacity()`: effective slot limit (or unbounded sentinel);
modelled from the spec as a stored per-container value. -/
def Item.capacity (i : Item) : Nat := i.data.capacityV

/-- `Container::getMaxCapacity()`: configured limit regardless of unbounded
mode; modelled from the spec as a stored per-container value. -/
def Item.maxCapacity (i : Item) : Nat := i.data.maxCapacityV

/-- Whether `Item::getContainer()` returns non-null. -/
def Item.isCont (i : Item) : Bool := i.data.isCont

/-- The item's catalog id. -/
def Item.itemId (i : Item) : Nat := i.data.itemId

/-- The item's stack count / subtype value. -/
def Item.count (i : Item) : Nat := i.data.count

/-- Whether the item's parent is `VirtualCylinder::virtualCylinder`
(custody `Limbo`). -/
def Item.inLimbo (i : Item) : Bool := i.data.inLimbo

/-- Whether the container's reward flag is set. -/
def Item.rewardCorpse (i : Item) : Bool := i.data.rewardCorpse

/-- `Container::getCorpseOwner()`. -/
def Item.getCorpseOwner (i : Item) : Nat := i.data.corpseOwnerId

/-- Attribute lookup on an item's open attribute mapping. -/
def Item.getAttr (i : Item) (k : ItemAttr) : Option Int :=
  (i.data.attrs.find? (fun p => p.1 = k)).map Prod.snd

/-- `Item::setAttribute`: writes (or overwrites) one typed attribute. -/
def Item.setAttribute (i : Item) (k : ItemAttr) (v : Int) : Item :=
  .node { i.data with attrs := (k, v) :: i.data.attrs.filter (fun p => p.1 ≠ k) } i.slots

/-- `Container::setRewardCorpse()`: sets the container's reward flag.
Modelled from the spec: marks a container as a reward receptacle. -/
def Item.setRewardCorpse (i : Item) : Item :=
  .node { i.data with rewardCorpse := true } i.slots

/-- Custody transfer on successful insertion: the item leaves `Limbo`.
Modelled from the spec: on successful insertion custody becomes
`OwnedBy(container, index)`. -/
def Item.setOwned (i : Item) : Item :=
  .node { i.data with inLimbo := false } i.slots

/-- `Container::internalAddThing`: places an item into the container's
slot sequence.  Modelled from the spec: the Insertion Engine appends the
item to the slot sequence and transfers custody. -/
def Item.internalAddThing (c i : Item) : Item :=
  .node c.data (c.slots ++ [i.setOwned])

/-- Modelled from the spec §4.4: the list of items produced by
`ContainerIterator` over a slot sequence — each top-level slot in index
order, a container's contents visited depth-first pre-order before the
next sibling. -/
def dfsList : List Item → List Item
  | [] => []
  | Item.node d s :: rest =>
      Item.node d s :: ((if d.isCont then dfsList s else []) ++ dfsList rest)
termination_by l => sizeOf l
decreasing_by
  all_goals simp_wf <;> omega

/-- `Container::iterator()` materialised: the depth-first item sequence
over the container's contents.  Modelled from the spec §4.4. -/
def Item.iteratorList (c : Item) : List Item := dfsList c.slots

/-- `Container::getItemHoldingCount()`: total number of items held
recursively.  Modelled from the spec: the length of the Recursive
Iterator's sequence. -/
def Item.getItemHoldingCount (c : Item) : Nat := c.iteratorList.length

/-- `Container::getItemByIndex(i)`: the item at slot `i` or absent.
Modelled from the spec §4.2. -/
def Item.getItemByIndex (c : Item) (i : Nat) : Option Item := c.slots.get? i

/-- Structural equality test on items, used to model reference identity
checks of the engine on our value-level items. -/
def beqItems : List Item → List Item → Bool
  | [], [] => true
  | Item.node d s :: r, Item.node e t :: u =>
      d == e && beqItems s t && beqItems r u
  | _, _ => false
termination_by l _ => sizeOf l
decreasing_by
  all_goals simp_wf <;> omega

/-- `Container::isHoldingItem(item)`: presence anywhere in the subtree.
Modelled from the spec §4.2. -/
def Item.isHoldingItem (c : Item) (i : Item) : Bool :=
  c.iteratorList.any (fun j => beqItems [j] [i])

/-- `Container::getItemTypeCount(itemId, subType)`: sum of counts of
matching items across the recursive subtree; `subType = -1` matches any.
Modelled from the spec §4.2. -/
def Item.getItemTypeCount (c : Item) (itemId : Nat) (subType : Int) : Nat :=
  c.iteratorList.foldl
    (fun acc i =>
      if i.itemId = itemId && (subType == -1 || subType == Int.ofNat i.count)
      then acc + i.count else acc) 0

/-- `Container::getContentDescription(oldProtocol)`: descriptive text of
contained items.  Modelled from the spec §4.2: lists name-by-count of the
recursive contents; the legacy flag selects an older layout. -/
def Item.getContentDescription (c : Item) (legacy : Bool) : String :=
  let one := fun (i : Item) =>
    toString i.itemId ++ (if legacy then " x" else " of ") ++ toString i.count
  String.intercalate ", " (c.iteratorList.map one)

/-- `Container::getItems(recursive)`: materialises the item sequence,
top-level only unless `recursive`.  Modelled from the spec §4.2. -/
def Item.getItems (c : Item) (recursive : Bool) : List Item :=
  if recursive then c.iteratorList else c.slots

/-- Catalog entry for an item id, per the spec's Item Catalog contract
(§6): stackability, 16-bit stack limit, base capacity, display name;
`known` models whether the factory can construct the id at all. -/
structure ItemType where
  known : Bool
  stackable : Bool
  stackSize : Nat
  baseCapacity : Nat
  isContainer : Bool
  name : String

/-- The external Item Catalog (`Item::items`): id-indexed metadata plus
name resolution (0 = not found).  Modelled from the spec §6. -/
structure Catalog where
  types : Nat → ItemType
  getItemIdByName : String → Nat

/-- The item the external factory constructs for a catalog id: a fresh
`Limbo`-custody instance with catalog-derived container data. -/
def freshItem (catalog : Catalog) (id count : Nat) : Item :=
  Item.node
    { itemId := id, count := count, attrs := [], rewardCorpse := false,
      isCont := (catalog.types id).isContainer,
      capacityV := (catalog.types id).baseCapacity,
      maxCapacityV := (catalog.types id).baseCapacity,
      inLimbo := true, corpseOwnerId := 0 } []

/-- `Item::CreateItem(id, count)`: the external Item Factory.  Modelled
from the spec §6: constructs a new `Limbo`-custody item for a known
catalog id, or fails. -/
def CreateItem (catalog : Catalog) (id count : Nat) : Option Item :=
  if (catalog.types id).known then some (freshItem catalog id count) else none

/-- The C++ code dereferences some factory results without a null check;
this models that unchecked dereference (meaningful only when the factory
succeeded). -/
def derefItem (o : Option Item) : Item :=
  o.getD (Item.node
    { itemId := 0, count := 0, attrs := [], rewardCorpse := false,
      isCont := false, capacityV := 0, maxCapacityV := 0,
      inLimbo := true, corpseOwnerId := 0 } [])

/-- The engine's `ReturnValue` codes, as far as the bindings observe
them: the bindings only compare against `RETURNVALUE_NOERROR` and push
the numeric value.  Modelled from the spec §7. -/
inductive ReturnValue where
  | noerror
  | alreadyOwned
  | cyclicContainment
  | containerFull
  | invalidIndex
  | notFound
  | other (n : Nat)
deriving DecidableEq, Repr

/-- The numeric value `lua_pushnumber` pushes for a `ReturnValue`. -/
def ReturnValue.toNat : ReturnValue → Nat
  | .noerror => 0
  | .alreadyOwned => 1
  | .cyclicContainment => 2
  | .containerFull => 3
  | .invalidIndex => 4
  | .notFound => 5
  | .other n => n + 6

/-- `getReturnMessage`: the human-readable text for a return code.
Modelled from the spec: an external utility naming each code. -/
def getReturnMessage : ReturnValue → String
  | .noerror => "No error."
  | .alreadyOwned => "The item already has an owner."
  | .cyclicContainment => "This is impossible."
  | .containerFull => "The container is full."
  | .invalidIndex => "Invalid slot."
  | .notFound => "Not found."
  | .other _ => "Sorry, not possible."

/-- A value a binding leaves on the Lua stack. -/
inductive LuaValue where
  | nil
  | boolean (b : Bool)
  | number (n : Nat)
  | str (s : String)
  | item (i : Item)
  | table (entries : List (Nat × Item))

/-- Result of one binding call: the pushed value and the error reports
emitted through `reportErrorFunc`. -/
structure LuaRet where
  value : LuaValue
  errors : List String

/-- Observable calls the `addItemEx` binding makes into its collaborators
(`g_game().internalAddItem` and `ScriptEnvironment::removeTempItem`). -/
inductive Effect where
  | internalAddItem (index : Int) (flags : Nat)
  | removeTempItem

/-- `INDEX_WHEREEVER`: the sentinel slot index meaning "engine picks". -/
def INDEX_WHEREEVER : Int := -1

/-- The item id constant `ITEM_REWARD_CONTAINER` of the engine. -/
def ITEM_REWARD_CONTAINER : Nat := 21518

/-- 2^32, the modulus of the bindings' `uint32_t` arithmetic. -/
def M32 : Nat := 4294967296

/-- `uint32_t` addition. -/
def add32 (a b : Nat) : Nat := (a + b) % M32

/-- `uint32_t` subtraction. -/
def sub32 (a b : Nat) : Nat := (a % M32 + (M32 - b % M32)) % M32

/-- The second Lua argument of `addItem` / `getItemCountById`: a numeric
item id or an item name. -/
inductive IdOrName where
  | num (n : Nat)
  | name (s : String)

/-- `luaContainerGetSize`: `container:getSize()`. -/
def luaContainerGetSize (container : Option Item) : LuaRet :=
  match container with
  | some c => ⟨.number c.size, []⟩
  | none => ⟨.nil, []⟩

/-- `luaContainerGetMaxCapacity`: `container:getMaxCapacity()`. -/
def luaContainerGetMaxCapacity (container : Option Item) : LuaRet :=
  match container with
  | some c => ⟨.number c.maxCapacity, []⟩
  | none => ⟨.nil, []⟩

/-- `luaContainerGetCapacity`: `container:getCapacity()`. -/
def luaContainerGetCapacity (container : Option Item) : LuaRet :=
  match container with
  | some c => ⟨.number c.capacity, []⟩
  | none => ⟨.nil, []⟩

/-- The body of the recursive loop in `luaContainerGetEmptySlots`:
`if (tmpContainer) slots += tmpContainer->capacity() - tmpContainer->size()`. -/
def emptySlotsStep (acc : Nat) (i : Item) : Nat :=
  if i.isCont then add32 acc (sub32 i.capacity i.size) else acc

/-- `luaContainerGetEmptySlots`: `container:getEmptySlots([recursive = false])`. -/
def luaContainerGetEmptySlots (container : Option Item) (recursiveArg : Option Bool) : LuaRet :=
  match container with
  | none => ⟨.nil, []⟩
  | some c =>
    let slots := sub32 c.capacity c.size
    let recursive := recursiveArg.getD false
    let slots := if recursive then c.iteratorList.foldl emptySlotsStep slots else slots
    ⟨.number slots, []⟩

/-- `luaContainerGetItemHoldingCount`: `container:getItemHoldingCount()`. -/
def luaContainerGetItemHoldingCount (container : Option Item) : LuaRet :=
  match container with
  | some c => ⟨.number c.getItemHoldingCount, []⟩
  | none => ⟨.nil, []⟩

/-- `luaContainerGetItem`: `container:getItem(index)`. -/
def luaContainerGetItem (container : Option Item) (indexArg : Nat) : LuaRet :=
  match container with
  | none => ⟨.nil, []⟩
  | some c =>
    let index := indexArg % M32
    match c.getItemByIndex index with
    | some item => ⟨.item item, []⟩
    | none => ⟨.nil, []⟩

/-- `luaContainerHasItem`: `container:hasItem(item)`. -/
def luaContainerHasItem (container : Option Item) (itemArg : Option Item) : LuaRet :=
  match container with
  | some c =>
    match itemArg with
    | some i => ⟨.boolean (c.isHoldingItem i), []⟩
    | none => ⟨.boolean false, []⟩
  | none => ⟨.nil, []⟩

/-- The item-id marshaling shared by `addItem` and `getItemCountById`:
a numeric argument is read as `uint16_t`; a string is resolved through
`Item::items.getItemIdByName`, 0 meaning not found. -/
def resolveItemId (catalog : Catalog) (arg2 : IdOrName) : Option Nat :=
  match arg2 with
  | .num n => some (n % 65536)
  | .name s =>
    let i := catalog.getItemIdByName s
    if i = 0 then none else some i

/-- The count `addItem` passes to the factory (lines 147-151 of the
binding): the request is read as `uint32_t` (default 1), and for a
stackable catalog type it is clamped through `std::min<uint16_t>` — the
request is truncated to 16 bits before the comparison with `stackSize`. -/
def addItemCount (catalog : Catalog) (itemId : Nat) (countArg : Option Nat) : Nat :=
  let count := (countArg.getD 1) % M32
  if (catalog.types itemId).stackable
    then min (count % 65536) (catalog.types itemId).stackSize
    else count

/-- `luaContainerAddItem`:
`container:addItem(itemId[, count/subType = 1[, index = INDEX_WHEREEVER[, flags = 0]]])`.
The insertion engine `g_game().internalAddItem` is an external
collaborator, passed in as `engine`. -/
def luaContainerAddItem (catalog : Catalog)
    (engine : Item → Item → Int → Nat → ReturnValue)
    (container : Option Item) (arg2 : IdOrName)
    (countArg : Option Nat) (indexArg : Option Int) (flagsArg : Option Nat) : LuaRet :=
  match container with
  | none => ⟨.nil, ["Container is nullptr"]⟩
  | some c =>
    match resolveItemId catalog arg2 with
    | none => ⟨.nil, ["Item id is wrong"]⟩
    | some itemId =>
      let count := addItemCount catalog itemId countArg
      match CreateItem catalog itemId count with
      | none => ⟨.nil, ["Item is nullptr"]⟩
      | some item =>
        let index := indexArg.getD INDEX_WHEREEVER
        let flags := (flagsArg.getD 0) % M32
        let ret := engine c item index flags
        if ret = .noerror then
          ⟨.item item, []⟩
        else
          ⟨.boolean false,
            ["Cannot add item to container, error code: \x27"
              ++ getReturnMessage ret ++ "\x27"]⟩

/-- `luaContainerAddItemEx`:
`container:addItemEx(item[, index = INDEX_WHEREEVER[, flags = 0]])`.
Besides the Lua result, the observable calls into the engine and the
script environment are returned as an effect list. -/
def luaContainerAddItemEx (engine : Item → Item → Int → Nat → ReturnValue)
    (container : Option Item) (itemArg : Option Item)
    (indexArg : Option Int) (flagsArg : Option Nat) : LuaRet × List Effect :=
  match itemArg with
  | none => (⟨.nil, []⟩, [])
  | some item =>
    match container with
    | none => (⟨.nil, []⟩, [])
    | some c =>
      if item.inLimbo = false then
        (⟨.nil, ["Item already has a parent"]⟩, [])
      else
        let index := indexArg.getD INDEX_WHEREEVER
        let flags := (flagsArg.getD 0) % M32
        let ret := engine c item index flags
        (⟨.number ret.toNat, []⟩,
          Effect.internalAddItem index flags ::
            (if ret = .noerror then [Effect.removeTempItem] else []))

/-- `luaContainerGetCorpseOwner`: `container:getCorpseOwner()`. -/
def luaContainerGetCorpseOwner (container : Option Item) : LuaRet :=
  match container with
  | some c => ⟨.number c.getCorpseOwner, []⟩
  | none => ⟨.nil, []⟩

/-- `luaContainerGetItemCountById`:
`container:getItemCountById(itemId[, subType = -1])`. -/
def luaContainerGetItemCountById (catalog : Catalog)
    (container : Option Item) (arg2 : IdOrName) (subTypeArg : Option Int) : LuaRet :=
  match container with
  | none => ⟨.nil, []⟩
  | some c =>
    match resolveItemId catalog arg2 with
    | none => ⟨.nil, []⟩
    | some itemId =>
      let subType := subTypeArg.getD (-1)
      ⟨.number (c.getItemTypeCount itemId subType), []⟩

/-- `luaContainerGetContentDescription`:
`container:getContentDescription([oldProtocol])`. -/
def luaContainerGetContentDescription (container : Option Item) (oldProtocolArg : Option Bool) : LuaRet :=
  match container with
  | some c => ⟨.str (c.getContentDescription (oldProtocolArg.getD false)), []⟩
  | none => ⟨.nil, []⟩

/-- The table-building loop of `luaContainerGetItems`:
`int index = 0; for item: index++; push; lua_rawseti(L, -2, index)`. -/
def buildItemTable : List Item → Nat → List (Nat × Item)
  | [], _ => []
  | i :: rest, idx => (idx + 1, i) :: buildItemTable rest (idx + 1)

/-- `luaContainerGetItems`: `container:getItems([recursive = false])`. -/
def luaContainerGetItems (container : Option Item) (recursiveArg : Option Bool) : LuaRet :=
  match container with
  | none => ⟨.nil, []⟩
  | some c =>
    let recursive := recursiveArg.getD false
    let items := c.getItems recursive
    ⟨.table (buildItemTable items 0), []⟩

/-- `luaContainerRegisterReward`: `container:registerReward()`.  `now` is
the value `getTimeMsNow()` returns; the updated container (the binding's
mutation of the shared engine object) is returned alongside the Lua
result. -/
def luaContainerRegisterReward (catalog : Catalog)
    (container : Option Item) (now : Int) : LuaRet × Option Item :=
  match container with
  | none => (⟨.nil, []⟩, none)
  | some c =>
    let rewardId := now
    let rewardContainer := derefItem (CreateItem catalog ITEM_REWARD_CONTAINER 1)
    let rewardContainer := rewardContainer.setAttribute .date rewardId
    let c := c.setAttribute .date rewardId
    let c := c.internalAddThing rewardContainer
    let c := c.setRewardCorpse
    (⟨.boolean true, []⟩, some c)

/-- `luaContainerCreate`: `Container(uid)`; `env` is
`getScriptEnv()->getContainerByUID`. -/
def luaContainerCreate (env : Nat → Option Item) (uid : Nat) : LuaRet :=
  match env (uid % M32) with
  | some c => ⟨.item c, []⟩
  | none => ⟨.nil, []⟩

/-- Spec-side reading of the recursive part of `getEmptySlots`: the sum of
`capacity() − size()` over the nested containers of an item sequence. -/
def sumEmpty (l : List Item) : Nat :=
  ((l.filter (fun i => i.isCont)).map (fun i => i.capacity - i.size)).sum

/-- Sample item data for concrete instantiations. -/
def mkData (id cnt : Nat) (cont : Bool) (cap : Nat) (limbo : Bool) : ItemData :=
  { itemId := id, count := cnt, attrs := [], rewardCorpse := false,
    isCont := cont, capacityV := cap, maxCapacityV := cap,
    inLimbo := limbo, corpseOwnerId := 0 }

/-- A sample plain (non-container, owned) item. -/
def sampleLeaf : Item := Item.node (mkData 3 1 false 0 false) []

/-- A sample nested container with capacity 5 holding one item. -/
def sampleSub : Item := Item.node (mkData 4 1 true 5 false) [sampleLeaf]

/-- A sample container with capacity 10 holding the nested container and a
plain item. -/
def sampleContainer : Item := Item.node (mkData 5 1 true 10 false) [sampleSub, sampleLeaf]

/-- A sample item in `Limbo` custody. -/
def sampleLimboItem : Item := Item.node (mkData 7 1 false 0 true) []

/-- A sample owned item (parent is not the staging area). -/
def sampleOwnedItem : Item := Item.node (mkData 7 1 false 0 false) []

/-- A sample catalog: every id is known; id 1 is a stackable type with
`stackSize` 100; other ids are plain container-less types; names resolve
to nothing. -/
def sampleCatalog : Catalog :=
  { types := fun id =>
      if id = 1 then
        { known := true, stackable := true, stackSize := 100,
          baseCapacity := 0, isContainer := false, name := "gold coin" }
      else
        { known := true, stackable := false, stackSize := 0,
          baseCapacity := 8, isContainer := true, name := "bag" },
    getItemIdByName := fun _ => 0 }

/-! Basic facts about the modelled engine operations, shared by the claim
theorems below. -/

theorem slots_setAttribute (i : Item) (k : ItemAttr) (v : Int) :
    (i.setAttribute k v).slots = i.slots := rfl

theorem slots_setRewardCorpse (i : Item) :
    i.setRewardCorpse.slots = i.slots := rfl

theorem slots_internalAddThing (c i : Item) :
    (c.internalAddThing i).slots = c.slots ++ [i.setOwned] := rfl

theorem getAttr_setRewardCorpse (i : Item) (k : ItemAttr) :
    i.setRewardCorpse.getAttr k = i.getAttr k := rfl

theorem getAttr_internalAddThing (c i : Item) (k : ItemAttr) :
    (c.internalAddThing i).getAttr k = c.getAttr k := rfl

theorem getAttr_setOwned (i : Item) (k : ItemAttr) :
    i.setOwned.getAttr k = i.getAttr k := rfl

theorem itemId_setOwned (i : Item) : i.setOwned.itemId = i.itemId := rfl

theorem itemId_setAttribute (i : Item) (k : ItemAttr) (v : Int) :
    (i.setAttribute k v).itemId = i.itemId := rfl

theorem rewardCorpse_setRewardCorpse (i : Item) :
    i.setRewardCorpse.rewardCorpse = true := rfl

theorem getAttr_setAttribute_same (i : Item) (k : ItemAttr) (v : Int) :
    (i.setAttribute k v).getAttr k = some v := by
  simp [Item.getAttr, Item.setAttribute, Item.data, List.find?]

theorem freshItem_itemId (catalog : Catalog) (id cnt : Nat) :
    (freshItem catalog id cnt).itemId = id := rfl

theorem freshItem_count (catalog : Catalog) (id cnt : Nat) :
    (freshItem catalog id cnt).count = cnt := rfl

theorem CreateItem_known (catalog : Catalog) (id : Nat)
    (h : (catalog.types id).known = true) (cnt : Nat) :
    CreateItem catalog id cnt = some (freshItem catalog id cnt) := by
  simp [CreateItem, h]

theorem derefItem_CreateItem_known (catalog : Catalog) (id : Nat)
    (h : (catalog.types id).known = true) (cnt : Nat) :
    derefItem (CreateItem catalog id cnt) = freshItem catalog id cnt := by
  simp [CreateItem, derefItem, h]

theorem addItemCount_stackable (catalog : Catalog) (itemId : Nat)
    (countArg : Option Nat) (h : (catalog.types itemId).stackable = true) :
    addItemCount catalog itemId countArg
      = min ((countArg.getD 1) % M32 % 65536) (catalog.types itemId).stackSize := by
  simp [addItemCount, h]

/-- Characterization of `addItem` on a non-null container when the item
id resolves and the factory knows the id: a single fresh item with the
clamped count is handed to the insertion engine, and the result converts
the engine's `ReturnValue`. -/
theorem luaContainerAddItem_known (catalog : Catalog)
    (engine : Item → Item → Int → Nat → ReturnValue) (c : Item)
    (arg2 : IdOrName) (countArg : Option Nat) (indexArg : Option Int)
    (flagsArg : Option Nat) (itemId : Nat)
    (hres : resolveItemId catalog arg2 = some itemId)
    (hknown : (catalog.types itemId).known = true) :
    luaContainerAddItem catalog engine (some c) arg2 countArg indexArg flagsArg
      = (if engine c (freshItem catalog itemId (addItemCount catalog itemId countArg))
            (indexArg.getD INDEX_WHEREEVER) ((flagsArg.getD 0) % M32) = .noerror
         then ⟨.item (freshItem catalog itemId (addItemCount catalog itemId countArg)), []⟩
         else ⟨.boolean false,
            ["Cannot add item to container, error code: \x27"
              ++ getReturnMessage (engine c
                    (freshItem catalog itemId (addItemCount catalog itemId countArg))
                    (indexArg.getD INDEX_WHEREEVER) ((flagsArg.getD 0) % M32))
              ++ "\x27"]⟩) := by
  simp only [luaContainerAddItem, hres, CreateItem_known catalog itemId hknown]

/-- Characterization of `addItem` when the factory cannot construct the
resolved id. -/
theorem luaContainerAddItem_unknown (catalog : Catalog)
    (engine : Item → Item → Int → Nat → ReturnValue) (c : Item)
    (arg2 : IdOrName) (countArg : Option Nat) (indexArg : Option Int)
    (flagsArg : Option Nat) (itemId : Nat)
    (hres : resolveItemId catalog arg2 = some itemId)
    (hknown : ¬ (catalog.types itemId).known = true) :
    luaContainerAddItem catalog engine (some c) arg2 countArg indexArg flagsArg
      = ⟨.nil, ["Item is nullptr"]⟩ := by
  simp only [luaContainerAddItem, hres]
  rw [show CreateItem catalog itemId (addItemCount catalog itemId countArg) = none
    from by simp [CreateItem, hknown]]

/-! The claim theorems. -/

/-- C2, counterexample: `addItemEx` — a mutating call — invoked on a null
container reference pushes nil but emits no error report, contradicting
the claim that every mutating call additionally reports an explicit
error. -/
theorem addItemEx_null_container_silent :
    ¬ (((luaContainerAddItemEx (fun _ _ _ _ => ReturnValue.noerror) none
          (some sampleLimboItem) none none).1.value = LuaValue.nil) ∧
       ((luaContainerAddItemEx (fun _ _ _ _ => ReturnValue.noerror) none
          (some sampleLimboItem) none none).1.errors ≠ [])) := by
  intro h
  exact h.2 rfl

/-- C2 (amended): every public container operation of the binding layer
rejects a null/absent container reference with a null result; of the
mutating calls only `addItem` additionally emits an explicit error report
("Container is nullptr"), while `addItemEx` and `registerReward` reject
silently. -/
theorem null_container_rejection (catalog : Catalog)
    (engine : Item → Item → Int → Nat → ReturnValue)
    (arg2 : IdOrName) (countArg : Option Nat) (indexArg : Option Int)
    (flagsArg : Option Nat) (subTypeArg : Option Int) (boolArg : Option Bool)
    (indexNat : Nat) (itemArg : Option Item) (now : Int) :
    (luaContainerGetSize none).value = .nil ∧
    (luaContainerGetMaxCapacity none).value = .nil ∧
    (luaContainerGetCapacity none).value = .nil ∧
    (luaContainerGetEmptySlots none boolArg).value = .nil ∧
    (luaContainerGetItemHoldingCount none).value = .nil ∧
    (luaContainerGetItem none indexNat).value = .nil ∧
    (luaContainerHasItem none itemArg).value = .nil ∧
    (luaContainerAddItem catalog engine none arg2 countArg indexArg flagsArg).value = .nil ∧
    (luaContainerAddItemEx engine none itemArg indexArg flagsArg).1.value = .nil ∧
    (luaContainerGetCorpseOwner none).value = .nil ∧
    (luaContainerGetItemCountById catalog none arg2 subTypeArg).value = .nil ∧
    (luaContainerGetContentDescription none boolArg).value = .nil ∧
    (luaContainerGetItems none boolArg).value = .nil ∧
    (luaContainerRegisterReward catalog none now).1.value = .nil ∧
    (luaContainerAddItem catalog engine none arg2 countArg indexArg flagsArg).errors
      = ["Container is nullptr"] ∧
    (luaContainerAddItemEx engine none itemArg indexArg flagsArg).1.errors = [] ∧
    (luaContainerRegisterReward catalog none now).1.errors = [] := by
  cases itemArg <;>
    exact ⟨rfl, rfl, rfl, rfl, rfl, rfl, rfl, rfl, rfl, rfl, rfl, rfl, rfl, rfl, rfl, rfl, rfl⟩

/-- C3: `addItemEx` on a non-null container and non-null item fails with
the already-owned error ("Item already has a parent", null result) and
performs no call into the insertion engine whenever the item's custody is
not `Limbo`; only an item in `Limbo` proceeds to the custody-transfer
attempt (`internalAddItem`). -/
theorem addItemEx_custody_check (engine : Item → Item → Int → Nat → ReturnValue)
    (c item : Item) (indexArg : Option Int) (flagsArg : Option Nat) :
    (item.inLimbo = false →
      luaContainerAddItemEx engine (some c) (some item) indexArg flagsArg
        = (⟨.nil, ["Item already has a parent"]⟩, [])) ∧
    (item.inLimbo = true →
      (luaContainerAddItemEx engine (some c) (some item) indexArg flagsArg).2.head?
        = some (.internalAddItem (indexArg.getD INDEX_WHEREEVER) ((flagsArg.getD 0) % M32))) := by
  constructor
  · intro h
    simp [luaContainerAddItemEx, h]
  · intro h
    simp [luaContainerAddItemEx, h]

/-- C3, witness: with a concrete owned item the call fails as stated, and
with a concrete `Limbo` item the engine is invoked. -/
theorem addItemEx_custody_check_witness :
    (luaContainerAddItemEx (fun _ _ _ _ => ReturnValue.noerror) (some sampleContainer)
        (some sampleOwnedItem) none none
      = (⟨.nil, ["Item already has a parent"]⟩, [])) ∧
    ((luaContainerAddItemEx (fun _ _ _ _ => ReturnValue.noerror) (some sampleContainer)
        (some sampleLimboItem) none none).2.head?
      = some (.internalAddItem (-1) 0)) := by
  refine ⟨(addItemEx_custody_check _ _ _ _ _).1 rfl, ?_⟩
  have h := (addItemEx_custody_check (fun _ _ _ _ => ReturnValue.noerror)
    sampleContainer sampleLimboItem none none).2 rfl
  simpa [INDEX_WHEREEVER, M32] using h

/-- C7, counterexample: `registerReward` on an absent container reference
does not push boolean false — it pushes nil. -/
theorem registerReward_null_returns_nil :
    ¬ ((luaContainerRegisterReward sampleCatalog none 0).1.value
        = LuaValue.boolean false) := by
  simp [luaContainerRegisterReward]

/-- C7 (amended): when the container reference passed to `registerReward`
is absent, the operation fails silently: it pushes nil (not false), emits
no error report, and performs no mutation. -/
theorem registerReward_null_silent (catalog : Catalog) (now : Int) :
    luaContainerRegisterReward catalog none now = (⟨.nil, []⟩, none) := rfl

/-- C9: for `addItemEx` on a non-null container with a non-null `Limbo`
item, the binding pushes the numeric `ReturnValue` of the underlying
insertion in both the success and the failure case, and calls
`removeTempItem` on the script environment's temporary-item store if and
only if that `ReturnValue` is no-error. -/
theorem addItemEx_returns_code (engine : Item → Item → Int → Nat → ReturnValue)
    (c item : Item) (indexArg : Option Int) (flagsArg : Option Nat)
    (hlimbo : item.inLimbo = true) :
    (luaContainerAddItemEx engine (some c) (some item) indexArg flagsArg).1
      = ⟨.number (engine c item (indexArg.getD INDEX_WHEREEVER)
          ((flagsArg.getD 0) % M32)).toNat, []⟩ ∧
    (Effect.removeTempItem ∈ (luaContainerAddItemEx engine (some c) (some item) indexArg flagsArg).2
      ↔ engine c item (indexArg.getD INDEX_WHEREEVER) ((flagsArg.getD 0) % M32) = .noerror) := by
  by_cases h : engine c item (indexArg.getD INDEX_WHEREEVER) ((flagsArg.getD 0) % M32) = .noerror <;>
    simp [luaContainerAddItemEx, hlimbo, h]

/-- C9, witness: a concrete `Limbo` item and an engine returning no-error:
the numeric code 0 is pushed and the temporary item is removed. -/
theorem addItemEx_returns_code_witness :
    sampleLimboItem.inLimbo = true ∧
    (luaContainerAddItemEx (fun _ _ _ _ => ReturnValue.noerror) (some sampleContainer)
        (some sampleLimboItem) none none).1 = ⟨.number 0, []⟩ ∧
    Effect.removeTempItem ∈ (luaContainerAddItemEx (fun _ _ _ _ => ReturnValue.noerror)
        (some sampleContainer) (some sampleLimboItem) none none).2 := by
  have h := addItemEx_returns_code (fun _ _ _ _ => ReturnValue.noerror)
    sampleContainer sampleLimboItem none none rfl
  exact ⟨rfl, h.1, h.2.mpr rfl⟩

/-- The loop of `luaContainerGetItems` enumerates the item sequence with
consecutive keys starting one above the initial index. -/
theorem buildItemTable_eq (l : List Item) (idx : Nat) :
    buildItemTable l idx = (List.range' (idx + 1) l.length).zip l := by
  induction l generalizing idx with
  | nil => simp [buildItemTable]
  | cons i rest ih => simp [buildItemTable, List.range'_succ, ih]

/-- C10: `getItems(recursive)` on a non-null container pushes a table
mapping exactly the consecutive integer keys `1..n` to the items of the
container's materialized item sequence, in that sequence's order. -/
theorem getItems_table_enumeration (c : Item) (recursiveArg : Option Bool) :
    (luaContainerGetItems (some c) recursiveArg).value =
      .table ((List.range' 1 (c.getItems (recursiveArg.getD false)).length).zip
        (c.getItems (recursiveArg.getD false))) := by
  simp [luaContainerGetItems, buildItemTable_eq]

/-- C1: `registerReward` on a non-null container generates one timestamp,
creates a nested reward item inside the container, stamps both the new
nested item and the container itself with that same timestamp attribute,
sets the container's reward flag, and pushes true.  The factory must be
able to construct `ITEM_REWARD_CONTAINER` (the C++ code dereferences the
result unchecked). -/
theorem registerReward_ok (catalog : Catalog) (c : Item) (now : Int)
    (hknown : (catalog.types ITEM_REWARD_CONTAINER).known = true) :
    ∃ c' reward,
      luaContainerRegisterReward catalog (some c) now = (⟨.boolean true, []⟩, some c') ∧
      c'.slots = c.slots ++ [reward] ∧
      reward.itemId = ITEM_REWARD_CONTAINER ∧
      reward.getAttr .date = some now ∧
      c'.getAttr .date = some now ∧
      c'.rewardCorpse = true := by
  refine ⟨((c.setAttribute .date now).internalAddThing
      ((derefItem (CreateItem catalog ITEM_REWARD_CONTAINER 1)).setAttribute .date now)).setRewardCorpse,
    ((derefItem (CreateItem catalog ITEM_REWARD_CONTAINER 1)).setAttribute .date now).setOwned,
    rfl, ?_, ?_, ?_, ?_, ?_⟩
  · rw [slots_setRewardCorpse, slots_internalAddThing, slots_setAttribute]
  · rw [itemId_setOwned, itemId_setAttribute,
      derefItem_CreateItem_known _ _ hknown, freshItem_itemId]
  · rw [getAttr_setOwned, getAttr_setAttribute_same]
  · rw [getAttr_setRewardCorpse, getAttr_internalAddThing, getAttr_setAttribute_same]
  · exact rewardCorpse_setRewardCorpse _

/-- C1, witness: a concrete catalog and container. -/
theorem registerReward_ok_witness :
    (sampleCatalog.types ITEM_REWARD_CONTAINER).known = true ∧
    (∃ c' reward,
      luaContainerRegisterReward sampleCatalog (some sampleContainer) 5
        = (⟨.boolean true, []⟩, some c') ∧
      c'.slots = sampleContainer.slots ++ [reward] ∧
      reward.itemId = ITEM_REWARD_CONTAINER ∧
      reward.getAttr .date = some 5 ∧
      c'.getAttr .date = some 5 ∧
      c'.rewardCorpse = true) :=
  ⟨rfl, registerReward_ok sampleCatalog sampleContainer 5 rfl⟩

/-- C6: `addItem` on a non-null container with a resolvable (and
constructible) item id: when the underlying insertion returns no-error
the caller receives the resulting item; otherwise the `ReturnValue` is
converted to boolean false together with an error report naming the
return code. -/
theorem addItem_result_conversion (catalog : Catalog)
    (engine : Item → Item → Int → Nat → ReturnValue) (c : Item)
    (arg2 : IdOrName) (countArg : Option Nat) (indexArg : Option Int)
    (flagsArg : Option Nat) (itemId : Nat)
    (hres : resolveItemId catalog arg2 = some itemId)
    (hknown : (catalog.types itemId).known = true) :
    ∃ i : Item,
      (engine c i (indexArg.getD INDEX_WHEREEVER) ((flagsArg.getD 0) % M32) = .noerror →
        luaContainerAddItem catalog engine (some c) arg2 countArg indexArg flagsArg
          = ⟨.item i, []⟩) ∧
      (∀ ret, engine c i (indexArg.getD INDEX_WHEREEVER) ((flagsArg.getD 0) % M32) = ret →
        ret ≠ .noerror →
        luaContainerAddItem catalog engine (some c) arg2 countArg indexArg flagsArg
          = ⟨.boolean false,
              ["Cannot add item to container, error code: \x27"
                ++ getReturnMessage ret ++ "\x27"]⟩) := by
  refine ⟨freshItem catalog itemId (addItemCount catalog itemId countArg), ?_, ?_⟩
  · intro h
    rw [luaContainerAddItem_known catalog engine c arg2 countArg indexArg flagsArg
      itemId hres hknown, if_pos h]
  · intro ret hret hne
    rw [luaContainerAddItem_known catalog engine c arg2 countArg indexArg flagsArg
      itemId hres hknown, hret, if_neg hne]

/-- C6, witness: a concrete container and non-stackable item id, under a
succeeding and under a failing engine. -/
theorem addItem_result_conversion_witness :
    resolveItemId sampleCatalog (.num 2) = some 2 ∧
    (sampleCatalog.types 2).known = true ∧
    (∃ i : Item,
      ((fun (_ : Item) (_ : Item) (_ : Int) (_ : Nat) => ReturnValue.noerror) sampleContainer i
          ((none : Option Int).getD INDEX_WHEREEVER) (((none : Option Nat).getD 0) % M32) = .noerror →
        luaContainerAddItem sampleCatalog (fun _ _ _ _ => ReturnValue.noerror) (some sampleContainer)
          (.num 2) none none none = ⟨.item i, []⟩) ∧
      (∀ ret, (fun (_ : Item) (_ : Item) (_ : Int) (_ : Nat) => ReturnValue.noerror) sampleContainer i
          ((none : Option Int).getD INDEX_WHEREEVER) (((none : Option Nat).getD 0) % M32) = ret →
        ret ≠ .noerror →
        luaContainerAddItem sampleCatalog (fun _ _ _ _ => ReturnValue.noerror) (some sampleContainer)
          (.num 2) none none none
          = ⟨.boolean false,
              ["Cannot add item to container, error code: \x27"
                ++ getReturnMessage ret ++ "\x27"]⟩)) :=
  ⟨rfl, rfl, addItem_result_conversion sampleCatalog (fun _ _ _ _ => ReturnValue.noerror)
    sampleContainer (.num 2) none none none 2 rfl rfl⟩

/-- C8: in `addItem` the requested count is read as a 32-bit number, but
for a stackable item type it is clamped through a 16-bit `std::min`: the
count is truncated modulo 2^16 before the comparison with `stackSize`, so
the created item's count is `min (count mod 2^16) stackSize` — for
count = 65537 and `stackSize` 100 the item is created with count 1 (see
the witness). -/
theorem addItem_count_truncation (catalog : Catalog)
    (engine : Item → Item → Int → Nat → ReturnValue) (c : Item)
    (arg2 : IdOrName) (countArg : Option Nat) (indexArg : Option Int)
    (flagsArg : Option Nat) (itemId : Nat)
    (hres : resolveItemId catalog arg2 = some itemId)
    (hstack : (catalog.types itemId).stackable = true) :
    ∀ i : Item,
      (luaContainerAddItem catalog engine (some c) arg2 countArg indexArg flagsArg).value
        = LuaValue.item i →
      i.count = min ((countArg.getD 1) % M32 % 65536) (catalog.types itemId).stackSize := by
  intro i hi
  by_cases hknown : (catalog.types itemId).known = true
  · rw [luaContainerAddItem_known catalog engine c arg2 countArg indexArg flagsArg
      itemId hres hknown] at hi
    split at hi
    · simp only [LuaValue.item.injEq] at hi
      rw [← hi, freshItem_count, addItemCount_stackable catalog itemId countArg hstack]
    · simp at hi
  · rw [luaContainerAddItem_unknown catalog engine c arg2 countArg indexArg flagsArg
      itemId hres hknown] at hi
    simp at hi

/-- C8, witness: requesting 65537 units of the stackable type with
`stackSize` 100 creates the item with count 1. -/
theorem addItem_count_truncation_witness :
    resolveItemId sampleCatalog (.num 1) = some 1 ∧
    (sampleCatalog.types 1).stackable = true ∧
    ∀ i : Item,
      (luaContainerAddItem sampleCatalog (fun _ _ _ _ => ReturnValue.noerror)
        (some sampleContainer) (.num 1) (some 65537) none none).value = LuaValue.item i →
      i.count = 1 := by
  refine ⟨rfl, rfl, fun i hi => ?_⟩
  have h := addItem_count_truncation sampleCatalog (fun _ _ _ _ => ReturnValue.noerror)
    sampleContainer (.num 1) (some 65537) none none 1 rfl rfl i hi
  rw [h]
  rfl

/-- C4, counterexample: requesting 200 units of a stackable type with
`stackSize` 100 neither splits the excess into further slot entries nor
rejects the insertion — the call silently succeeds with a single item of
count 100 (the 100-unit excess is discarded). -/
theorem addItem_excess_cex :
    ¬ ((((luaContainerAddItem sampleCatalog (fun _ _ _ _ => ReturnValue.noerror)
            (some sampleContainer) (.num 1) (some 200) none none).value
          = LuaValue.boolean false) ∨
        ((luaContainerAddItem sampleCatalog (fun _ _ _ _ => ReturnValue.noerror)
            (some sampleContainer) (.num 1) (some 200) none none).value
          = LuaValue.nil)) ∨
       (∃ i : Item,
        (luaContainerAddItem sampleCatalog (fun _ _ _ _ => ReturnValue.noerror)
            (some sampleContainer) (.num 1) (some 200) none none).value
          = LuaValue.item i ∧ i.count = 200)) := by
  have h : luaContainerAddItem sampleCatalog (fun _ _ _ _ => ReturnValue.noerror)
      (some sampleContainer) (.num 1) (some 200) none none
      = ⟨.item (Item.node (mkData 1 100 false 0 true) []), []⟩ := rfl
  rw [h]
  simp [Item.count, Item.data, mkData]

/-- C4 (amended): for a stackable item type the created stack's count
never exceeds the catalog `stackSize`, but any requested excess over
`stackSize` (or over the 16-bit truncation) is silently clamped rather
than split or rejected: a single item is created with count
`min (count mod 2^16) stackSize` and the insertion proceeds normally. -/
theorem addItem_excess_clamped (catalog : Catalog)
    (engine : Item → Item → Int → Nat → ReturnValue) (c : Item)
    (arg2 : IdOrName) (countArg : Option Nat) (indexArg : Option Int)
    (flagsArg : Option Nat) (itemId : Nat)
    (hres : resolveItemId catalog arg2 = some itemId)
    (hknown : (catalog.types itemId).known = true)
    (hstack : (catalog.types itemId).stackable = true) :
    ∃ i : Item,
      i.count = min ((countArg.getD 1) % M32 % 65536) (catalog.types itemId).stackSize ∧
      i.count ≤ (catalog.types itemId).stackSize ∧
      (engine c i (indexArg.getD INDEX_WHEREEVER) ((flagsArg.getD 0) % M32) = .noerror →
        luaContainerAddItem catalog engine (some c) arg2 countArg indexArg flagsArg
          = ⟨.item i, []⟩) := by
  refine ⟨freshItem catalog itemId (addItemCount catalog itemId countArg), ?_, ?_, ?_⟩
  · rw [freshItem_count, addItemCount_stackable catalog itemId countArg hstack]
  · rw [freshItem_count, addItemCount_stackable catalog itemId countArg hstack]
    exact min_le_right _ _
  · intro h
    rw [luaContainerAddItem_known catalog engine c arg2 countArg indexArg flagsArg
      itemId hres hknown, if_pos h]

/-- C4, witness: requesting 200 of the stackable type with `stackSize`
100 creates a single item of count 100 and the insertion succeeds. -/
theorem addItem_excess_clamped_witness :
    resolveItemId sampleCatalog (.num 1) = some 1 ∧
    (sampleCatalog.types 1).known = true ∧
    (sampleCatalog.types 1).stackable = true ∧
    (∃ i : Item,
      i.count = min (200 % M32 % 65536) (sampleCatalog.types 1).stackSize ∧
      i.count ≤ (sampleCatalog.types 1).stackSize ∧
      ((fun (_ : Item) (_ : Item) (_ : Int) (_ : Nat) => ReturnValue.noerror) sampleContainer i
          ((none : Option Int).getD INDEX_WHEREEVER) (((none : Option Nat).getD 0) % M32) = .noerror →
        luaContainerAddItem sampleCatalog (fun _ _ _ _ => ReturnValue.noerror)
          (some sampleContainer) (.num 1) (some 200) none none = ⟨.item i, []⟩)) :=
  ⟨rfl, rfl, rfl, addItem_excess_clamped sampleCatalog (fun _ _ _ _ => ReturnValue.noerror)
    sampleContainer (.num 1) (some 200) none none 1 rfl rfl rfl⟩

theorem sub32_eq (a b : Nat) (hb : b ≤ a) (ha : a < M32) : sub32 a b = a - b := by
  have hb' : b < M32 := lt_of_le_of_lt hb ha
  unfold sub32
  rw [Nat.mod_eq_of_lt ha, Nat.mod_eq_of_lt hb']
  rw [show a + (M32 - b) = (a - b) + M32 from by omega]
  rw [Nat.add_mod_right, Nat.mod_eq_of_lt (by omega)]

theorem add32_eq (a b : Nat) (h : a + b < M32) : add32 a b = a + b := by
  unfold add32
  exact Nat.mod_eq_of_lt h

theorem sumEmpty_nil : sumEmpty [] = 0 := rfl

theorem sumEmpty_cons (i : Item) (l : List Item) :
    sumEmpty (i :: l)
      = (if i.isCont then i.capacity - i.size else 0) + sumEmpty l := by
  by_cases h : i.isCont = true <;> simp [sumEmpty, h]

theorem foldl_emptySlotsStep (l : List Item) (acc : Nat)
    (hb : ∀ i ∈ l, i.isCont = true → i.size ≤ i.capacity ∧ i.capacity < M32)
    (hs : acc + sumEmpty l < M32) :
    l.foldl emptySlotsStep acc = acc + sumEmpty l := by
  induction l generalizing acc with
  | nil => simp [sumEmpty_nil]
  | cons i rest ih =>
    rw [sumEmpty_cons] at hs ⊢
    rw [List.foldl_cons]
    by_cases hcont : i.isCont = true
    · obtain ⟨h1, h2⟩ := hb i (List.mem_cons_self i rest) hcont
      rw [if_pos hcont] at hs ⊢
      have hstep : emptySlotsStep acc i = acc + (i.capacity - i.size) := by
        rw [emptySlotsStep, if_pos hcont, sub32_eq _ _ h1 h2, add32_eq _ _ (by omega)]
      rw [hstep, ih (acc + (i.capacity - i.size))
        (fun j hj hcj => hb j (List.mem_cons_of_mem _ hj) hcj) (by omega)]
      omega
    · rw [if_neg hcont] at hs ⊢
      have hstep : emptySlotsStep acc i = acc := by
        rw [emptySlotsStep, if_neg hcont]
      rw [hstep, ih acc
        (fun j hj hcj => hb j (List.mem_cons_of_mem _ hj) hcj) (by omega)]
      omega

/-- C5: `getEmptySlots(recursive)` on a non-null container returns
`capacity() − size()` of the container, and when `recursive` is true
additionally adds `capacity() − size()` for every nested container
reachable via the Recursive Iterator.  The bounds hypotheses state the
spec's `size() ≤ capacity()` invariant and that the `uint32_t` arithmetic
does not wrap. -/
theorem getEmptySlots_spec (c : Item) (recursiveArg : Option Bool)
    (hc1 : c.size ≤ c.capacity) (hc2 : c.capacity < M32)
    (hb : ∀ i ∈ c.iteratorList, i.isCont = true → i.size ≤ i.capacity ∧ i.capacity < M32)
    (hs : (c.capacity - c.size) + sumEmpty c.iteratorList < M32) :
    (luaContainerGetEmptySlots (some c) recursiveArg).value =
      .number ((c.capacity - c.size) +
        if recursiveArg.getD false then sumEmpty c.iteratorList else 0) := by
  have hsub : sub32 c.capacity c.size = c.capacity - c.size := sub32_eq _ _ hc1 hc2
  by_cases hr : recursiveArg.getD false = true
  · simp only [luaContainerGetEmptySlots, hr, if_true, hsub]
    rw [foldl_emptySlotsStep c.iteratorList _ hb (by omega)]
  · simp only [luaContainerGetEmptySlots, hr, if_false, hsub]
    simp [hr]

/-- C5, witness: the sample container (capacity 10, two slots) holding a
nested container (capacity 5, one slot): recursive empty slots are
(10 − 2) + (5 − 1) = 12. -/
theorem getEmptySlots_spec_witness :
    (sampleContainer.size ≤ sampleContainer.capacity ∧
     sampleContainer.capacity < M32 ∧
     (∀ i ∈ sampleContainer.iteratorList,
        i.isCont = true → i.size ≤ i.capacity ∧ i.capacity < M32) ∧
     (sampleContainer.capacity - sampleContainer.size)
        + sumEmpty sampleContainer.iteratorList < M32) ∧
    (luaContainerGetEmptySlots (some sampleContainer) (some true)).value = .number 12 := by
  have hlist : sampleContainer.iteratorList = [sampleSub, sampleLeaf, sampleLeaf] := by
    simp [Item.iteratorList, dfsList, sampleContainer, sampleSub, sampleLeaf, mkData,
      Item.slots]
  have hb : ∀ i ∈ sampleContainer.iteratorList,
      i.isCont = true → i.size ≤ i.capacity ∧ i.capacity < M32 := by
    rw [hlist]
    intro i hi
    simp only [List.mem_cons, List.not_mem_nil, or_false] at hi
    rcases hi with rfl | rfl | rfl <;>
      simp [Item.isCont, Item.size, Item.capacity, Item.data, Item.slots,
        sampleSub, sampleLeaf, mkData, M32]
  have hs : (sampleContainer.capacity - sampleContainer.size)
      + sumEmpty sampleContainer.iteratorList < M32 := by
    rw [hlist]
    decide
  have h := getEmptySlots_spec sampleContainer (some true) (by decide) (by decide) hb hs
  refine ⟨⟨by decide, by decide, hb, hs⟩, ?_⟩
  rw [h, hlist]
  rfl

end ContainerSpec
